import Mathlib

/-!
Shallow embedding of the docling_api service (src/main.py) and proofs about
its upload/convert/cleanup workflow and timeout middleware.

The external docling converter and the curl_cffi HTTP client are opaque
collaborators; they are modelled as function-valued fields of an `Env`
record (`convert`, `httpGet`) returning `Except`, since the Python calls
either produce a value or raise.  File contents are abstracted to their
byte length (the only thing the code inspects is `len(first_chunk)`;
the bytes themselves flow opaquely to disk), and the queue/processed
directories are modelled as lists of file names.
-/

/-! ## String helpers (modelling Python `str` / `pathlib` operations) -/

/-- Boolean list prefix test (used to build `startswith` / `endswith`). -/
def listIsPre : List Char → List Char → Bool
  | [], _ => true
  | _ :: _, [] => false
  | a :: as, b :: bs => a == b && listIsPre as bs

/-- Python `s.endswith(p)`. -/
def strEnds (s p : String) : Bool :=
  listIsPre p.data.reverse s.data.reverse

/-- Python `s.startswith(p)` (used only to formalise the spec's notion of a
remote URL). -/
def strStarts (s p : String) : Bool :=
  listIsPre p.data s.data

/-- Python `s.lower()`, restricted to ASCII case folding (the extension
strings the service compares are ASCII). -/
def strLower (s : String) : String :=
  ⟨s.data.map Char.toLower⟩

/-- Final path component of a name, as `pathlib.PurePath(...).name` computes
it for ordinary upload filenames (everything after the last `/`). -/
def lastComp : List Char → List Char → List Char
  | [], acc => acc.reverse
  | '/' :: rest, _ => lastComp rest []
  | c :: rest, acc => lastComp rest (c :: acc)

/-- Walk the reversed name looking for the last dot.  `acc` holds, in
original order, the characters strictly after that dot.  Mirrors CPython
`PurePath.suffix`: empty when the last dot is the first or the last
character of the name. -/
def findSuffixRev : List Char → List Char → List Char
  | [], _ => []
  | '.' :: rest, acc =>
    if acc = [] then []
    else if rest = [] then []
    else '.' :: acc
  | c :: rest, acc => findSuffixRev rest (c :: acc)

/-- Python `pathlib.Path(name).suffix`. -/
def pySuffix (name : String) : String :=
  ⟨findSuffixRev (lastComp name.data []).reverse []⟩

/-! ## Constants from src/main.py (lines 22-29) -/

def UPLOAD_DIR : String := "document_queue"

def PROCESSED_DIR : String := "document_processed"

def MAX_FILE_SIZE : Nat := 20 * 1024 * 1024

def ALLOWED_EXTENSIONS : List String :=
  [".pdf", ".docx", ".pptx", ".jpg", ".jpeg", ".png", ".html",
   ".adoc", ".md", ".markdown"]

def UPLOAD_TIMEOUT : Nat := 120

/-! ## Data model -/

/-- `OutputFormat` enum (src/main.py lines 35-38). -/
inductive OutputFormat where
  | markdown
  | json
  | all
deriving DecidableEq, Repr

/-- Result document produced by the external converter
(`result.document`): its two export operations are modelled as fields. -/
structure Doc where
  markdownExport : String
  jsonDump : String
deriving DecidableEq, Repr

/-- The JSON dict returned on success: optional `markdown` / `json` keys. -/
structure Payload where
  markdown : Option String
  json : Option String
deriving DecidableEq, Repr

/-- Observable HTTP-level outcome of a handler: a 200 dict, a returned
`JSONResponse` (status + `error` field), or a raised `HTTPException`
(status + `detail` field). -/
inductive Response where
  | ok (p : Payload)
  | jsonResponse (status : Nat) (error : String)
  | httpError (status : Nat) (detail : String)
deriving DecidableEq, Repr

/-- HTTP status code carried by a `Response` (a plain dict is a 200). -/
def respStatus : Response → Nat
  | .ok _ => 200
  | .jsonResponse s _ => s
  | .httpError s _ => s

/-- Opaque collaborators: `converter.convert(path)` and
`requests.get(url, impersonate="chrome").text`.  Each either returns a
value or raises, modelled by `Except` with the exception's message. -/
structure Env where
  convert : String → Except String Doc
  httpGet : String → Except String String

/-- Side effects of one `convert_document` call that the claims talk
about: which URLs were fetched over HTTP, which paths were handed to the
external converter, and the lifecycle of the transient `tmp.html` file
(`tmpCreated` is the Python `temp_file` flag; `tmpAfter` is whether
`tmp.html` still exists when the call returns). -/
structure ConvEffects where
  httpGetCalls : List String
  convertCalls : List String
  tmpCreated : Bool
  tmpAfter : Bool
deriving DecidableEq, Repr

/-! ## Conversion orchestrator: `convert_document` (src/main.py 92-139) -/

/-- Response shaping (src/main.py lines 128-134). -/
def shapeResult (fmt : OutputFormat) (d : Doc) : Payload :=
  match fmt with
  | .markdown => { markdown := some d.markdownExport, json := none }
  | .json => { markdown := none, json := some d.jsonDump }
  | .all => { markdown := some d.markdownExport, json := some d.jsonDump }

/-- `convert_document(url, output_format)`.  If the url does not end in
`.html` the converter is called on it directly; otherwise the url is
fetched over HTTP, the text is written to `tmp.html`, that file is
converted, and the `finally` block deletes it whenever the `temp_file`
flag was set.  Every exception is caught (inner `except` for the fetch
branch, outer `except` for the rest) and turned into a
`JSONResponse(500, error=str(e))`; the function never raises. -/
def convert_document (env : Env) (url : String) (fmt : OutputFormat) :
    Response × ConvEffects :=
  if strEnds url ".html" = false then
    match env.convert url with
    | .ok d => (.ok (shapeResult fmt d), ⟨[], [url], false, false⟩)
    | .error e => (.jsonResponse 500 e, ⟨[], [url], false, false⟩)
  else
    match env.httpGet url with
    | .error e => (.jsonResponse 500 e, ⟨[url], [], false, false⟩)
    | .ok _text =>
      match env.convert "tmp.html" with
      | .ok d => (.ok (shapeResult fmt d), ⟨[url], ["tmp.html"], true, false⟩)
      | .error e => (.jsonResponse 500 e, ⟨[url], ["tmp.html"], true, false⟩)

/-! ## Filesystem model: the queue and processed directories -/

/-- A directory is the list of file names it holds. -/
structure FS where
  queue : List String
  processed : List String
deriving DecidableEq, Repr

/-- Writing a file (`open(path, "wb")` + `write`): same-name entries are
overwritten, so the name appears exactly once afterwards. -/
def setEntry (d : List String) (n : String) : List String :=
  n :: d.filter (fun m => m != n)

/-- Deleting a file (`Path.unlink` / the source half of `shutil.move`). -/
def delEntry (d : List String) (n : String) : List String :=
  d.filter (fun m => m != n)

/-- File-existence test (`Path.exists`). -/
def hasEntry (d : List String) (n : String) : Bool :=
  d.any (fun m => m == n)

/-- An uploaded file: its client-supplied name and payload length in
bytes.  The handler only ever inspects the name and the length; the
bytes themselves flow opaquely to disk. -/
structure UploadFilePy where
  filename : String
  size : Nat
deriving DecidableEq, Repr

/-- `Path(file.filename).suffix.lower()` (src/main.py line 177). -/
def fileExtensionOf (name : String) : String :=
  strLower (pySuffix name)

/-- Number of bytes `await file.read(MAX_FILE_SIZE + 1)` returns
(src/main.py line 185): the stream yields at most its full length. -/
def sizeCheckBytesRead (f : UploadFilePy) : Nat :=
  min f.size (MAX_FILE_SIZE + 1)

/-- `f"{timestamp}_{file.filename}"` (src/main.py line 197). -/
def mkQueuedName (today name : String) : String :=
  today ++ "_" ++ name

/-- `str(UPLOAD_DIR / new_filename)` (src/main.py line 198; pathlib
renders `./document_queue/x` as `document_queue/x`). -/
def queuePathOf (n : String) : String :=
  UPLOAD_DIR ++ "/" ++ n

/-- Error detail for a rejected extension (src/main.py lines 179-182;
the Python set-iteration order of the joined allow-list is modelled as
the declaration order). -/
def unsupportedFormatDetail : String :=
  "Unsupported file format. Allowed formats: " ++
    String.intercalate ", " ALLOWED_EXTENSIONS

/-- Error detail for an oversize upload (src/main.py lines 187-190). -/
def sizeLimitDetail : String :=
  "File size exceeds maximum limit of " ++
    toString (MAX_FILE_SIZE / (1024 * 1024)) ++ "MB"

/-- What one call of the upload endpoint yields: the HTTP-level outcome,
the directories afterwards, and the effects of the inner
`convert_document` call (empty if validation rejected first). -/
structure UploadResult where
  resp : Response
  fs : FS
  eff : ConvEffects
deriving DecidableEq, Repr

/-- Empty effect record (no conversion attempted). -/
def noEffects : ConvEffects := ⟨[], [], false, false⟩

/-! ## Upload handler: `upload_and_convert_document` (src/main.py 161-230)

The Python wraps steps in `try/except`: validation raises
`HTTPException(400)`; the inner `try` around the conversion would clean
up the queue file and raise `HTTPException(500)` on an exception — but
`convert_document` catches every exception internally and RETURNS a
`JSONResponse` instead of raising, so for conversion failures that
`except` branch never runs: the `shutil.move` into the processed
directory executes unconditionally and the 500 `JSONResponse` is
returned as the result.  The embedding reflects exactly that. -/

def upload_and_convert_document (env : Env) (today : String) (fs : FS)
    (file : UploadFilePy) (fmt : OutputFormat) : UploadResult :=
  let ext := fileExtensionOf file.filename
  if ALLOWED_EXTENSIONS.contains ext = false then
    ⟨.httpError 400 unsupportedFormatDetail, fs, noEffects⟩
  else if MAX_FILE_SIZE < sizeCheckBytesRead file then
    ⟨.httpError 400 sizeLimitDetail, fs, noEffects⟩
  else
    let new_filename := mkQueuedName today file.filename
    let fs1 : FS := { fs with queue := setEntry fs.queue new_filename }
    let r := convert_document env (queuePathOf new_filename) fmt
    let fs2 : FS := { queue := delEntry fs1.queue new_filename,
                      processed := setEntry fs1.processed new_filename }
    ⟨r.1, fs2, r.2⟩

/-! ## Timeout middleware (src/main.py 40-48)

`dispatch` awaits `asyncio.wait_for(call_next(request), UPLOAD_TIMEOUT)`.
The race is modelled by its outcome: the handler completed with a
response before the deadline, the deadline elapsed first (`wait_for`
cancels the handler and raises `asyncio.TimeoutError`), or the handler
raised some other exception (which the middleware does not catch). -/

inductive HandlerOutcome where
  | completed (r : Response)
  | timedOut
  | raised (msg : String)
deriving DecidableEq, Repr

/-- `TimeoutMiddleware.dispatch`: pass a completed response through,
map a timeout to a 408 `JSONResponse`, re-raise anything else. -/
def TimeoutMiddleware_dispatch : HandlerOutcome → Except String Response
  | .completed r => .ok r
  | .timedOut =>
    .ok (.jsonResponse 408
      ("Request timeout after " ++ toString UPLOAD_TIMEOUT ++ " seconds"))
  | .raised m => .error m

/-! ## Concrete environments and inputs for witnesses -/

def docA : Doc := ⟨"sample markdown", "sample json dump"⟩

/-- Environment where both collaborators succeed. -/
def envOk : Env := ⟨fun _ => .ok docA, fun _ => .ok "fetched html"⟩

/-- Environment where the external converter raises. -/
def envConvFail : Env :=
  ⟨fun _ => .error "converter failed", fun _ => .ok "fetched html"⟩

def fs0 : FS := ⟨[], []⟩

/-- The spec's notion of a remote resource: an http(s) URL.  This
formalises the claim's wording, to be compared with the routing
predicate the code actually uses. -/
def isRemoteUrl (url : String) : Bool :=
  strStarts url "http://" || strStarts url "https://"

/-! ## Helper lemmas -/

lemma listIsPre_append (p xs ys : List Char) (h : listIsPre p xs = true) :
    listIsPre p (xs ++ ys) = true := by
  induction p generalizing xs with
  | nil => rfl
  | cons a as ih =>
    cases xs with
    | nil => simp [listIsPre] at h
    | cons b bs =>
      simp [listIsPre] at h ⊢
      exact ⟨h.1, ih bs h.2⟩

lemma strEnds_append_right (a b p : String) (h : strEnds b p = true) :
    strEnds (a ++ b) p = true := by
  unfold strEnds at h ⊢
  rw [String.data_append, List.reverse_append]
  exact listIsPre_append _ _ _ h

lemma hasEntry_setEntry_self (d : List String) (n : String) :
    hasEntry (setEntry d n) n = true := by
  simp [hasEntry, setEntry]

lemma hasEntry_delEntry_self (d : List String) (n : String) :
    hasEntry (delEntry d n) n = false := by
  simp only [hasEntry, delEntry]
  rw [Bool.eq_false_iff]
  intro hcon
  rcases List.any_eq_true.mp hcon with ⟨m, hm, he⟩
  have hmn : m = n := by simpa using he
  subst hmn
  have := (List.mem_filter.mp hm).2
  simp at this

lemma convert_document_ok_shape (env : Env) (url : String)
    (fmt : OutputFormat) (p : Payload)
    (h : (convert_document env url fmt).1 = Response.ok p) :
    ∃ d : Doc, p = shapeResult fmt d := by
  unfold convert_document at h
  by_cases hu : strEnds url ".html" = false
  · rw [if_pos hu] at h
    cases hc : env.convert url with
    | ok d => rw [hc] at h; simp at h; exact ⟨d, h.symm⟩
    | error e => rw [hc] at h; simp at h
  · rw [if_neg hu] at h
    cases hg : env.httpGet url with
    | error e => rw [hg] at h; simp at h
    | ok t =>
      rw [hg] at h
      cases hc : env.convert "tmp.html" with
      | ok d => rw [hc] at h; simp at h; exact ⟨d, h.symm⟩
      | error e => rw [hc] at h; simp at h

/-! ## Claim theorems -/

/-- C4: for every conversion in which the external converter succeeds,
the response dict contains exactly the keys selected by `output_format`:
MARKDOWN yields only the `markdown` key, JSON yields only the `json`
key, and ALL yields both keys populated. -/
theorem convert_success_key_selection (env : Env) (url : String)
    (fmt : OutputFormat) (p : Payload)
    (h : (convert_document env url fmt).1 = Response.ok p) :
    (p.markdown.isSome = true ↔
        fmt = OutputFormat.markdown ∨ fmt = OutputFormat.all)
    ∧ (p.json.isSome = true ↔
        fmt = OutputFormat.json ∨ fmt = OutputFormat.all) := by
  rcases convert_document_ok_shape env url fmt p h with ⟨d, rfl⟩
  cases fmt <;> simp [shapeResult]

/-- Witness for C4: a concrete successful `output_format=all` conversion
carrying both keys. -/
theorem convert_success_key_selection_witness :
    ((shapeResult OutputFormat.all docA).markdown.isSome = true ↔
        OutputFormat.all = OutputFormat.markdown
          ∨ OutputFormat.all = OutputFormat.all)
    ∧ ((shapeResult OutputFormat.all docA).json.isSome = true ↔
        OutputFormat.all = OutputFormat.json
          ∨ OutputFormat.all = OutputFormat.all) :=
  convert_success_key_selection envOk "a.pdf" OutputFormat.all
    (shapeResult OutputFormat.all docA) rfl

/-- C8: `convert_document` never lets an exception escape: on every
input it returns either a success dict or a `JSONResponse` with status
500 whose `error` field is the message of the collaborator failure on
the taken path (direct conversion, HTTP fetch, or conversion of the
fetched `tmp.html`). -/
theorem convert_document_failure_boundary (env : Env) (url : String)
    (fmt : OutputFormat) :
    (∃ p, (convert_document env url fmt).1 = Response.ok p) ∨
    (∃ e, (convert_document env url fmt).1 = Response.jsonResponse 500 e
      ∧ (env.convert url = Except.error e
          ∨ env.httpGet url = Except.error e
          ∨ env.convert "tmp.html" = Except.error e)) := by
  unfold convert_document
  by_cases hu : strEnds url ".html" = false
  · rw [if_pos hu]
    cases hc : env.convert url with
    | ok d => exact Or.inl ⟨_, rfl⟩
    | error e => exact Or.inr ⟨e, rfl, Or.inl rfl⟩
  · rw [if_neg hu]
    cases hg : env.httpGet url with
    | error e => exact Or.inr ⟨e, rfl, Or.inr (Or.inl rfl)⟩
    | ok t =>
      cases hc : env.convert "tmp.html" with
      | ok d => exact Or.inl ⟨_, rfl⟩
      | error e => exact Or.inr ⟨e, rfl, Or.inr (Or.inr rfl)⟩

/-- C9: whenever a source is routed through the fetcher (url ends in
`.html`) and the fetch succeeds, the transient `tmp.html` file is
created and is gone when `convert_document` returns, whether the
conversion of it succeeded or failed (the converter side of `env` is
unconstrained). -/
theorem transient_file_deleted (env : Env) (url : String)
    (fmt : OutputFormat) (t : String)
    (hu : strEnds url ".html" = true)
    (hf : env.httpGet url = Except.ok t) :
    (convert_document env url fmt).2.tmpCreated = true
    ∧ (convert_document env url fmt).2.tmpAfter = false := by
  unfold convert_document
  rw [if_neg (by simp [hu]), hf]
  cases env.convert "tmp.html" <;> simp

/-- Witness for C9: a fetched page whose conversion fails still leaves
no transient file behind. -/
theorem transient_file_deleted_witness :
    (convert_document envConvFail "https://example.com/page.html"
        OutputFormat.markdown).2.tmpCreated = true
    ∧ (convert_document envConvFail "https://example.com/page.html"
        OutputFormat.markdown).2.tmpAfter = false :=
  transient_file_deleted envConvFail "https://example.com/page.html"
    OutputFormat.markdown "fetched html" (by decide) rfl

/-- C10: the timeout middleware uses the fixed 120-second deadline; when
the `asyncio.wait_for` race ends in a timeout (the library cancels the
in-flight handler) the client receives a 408 `JSONResponse` with the
explanatory message, and when the handler completes first its response
passes through unchanged. -/
theorem timeout_middleware_spec :
    UPLOAD_TIMEOUT = 120
    ∧ TimeoutMiddleware_dispatch HandlerOutcome.timedOut
        = Except.ok
            (Response.jsonResponse 408 "Request timeout after 120 seconds")
    ∧ ∀ r : Response,
        TimeoutMiddleware_dispatch (HandlerOutcome.completed r)
          = Except.ok r :=
  ⟨rfl, rfl, fun _ => rfl⟩

lemma listIsPre_refl_append (p ys : List Char) :
    listIsPre p (p ++ ys) = true := by
  induction p with
  | nil => rfl
  | cons a as ih => simp [listIsPre, ih]

lemma strStarts_append (a b : String) : strStarts (a ++ b) a = true := by
  unfold strStarts
  rw [String.data_append]
  exact listIsPre_refl_append _ _

lemma queuePathOf_ne_tmp (n : String) : queuePathOf n ≠ "tmp.html" := by
  intro h
  have h1 : strStarts (queuePathOf n) (UPLOAD_DIR ++ "/") = true :=
    strStarts_append _ _
  rw [h] at h1
  have h2 : strStarts "tmp.html" (UPLOAD_DIR ++ "/") = false := by decide
  rw [h1] at h2
  simp at h2

/-- C5: an upload whose extension (lower-cased suffix of the filename)
is outside the allow-list is rejected with a 400 `HTTPException` before
anything touches the filesystem: the queue and processed directories
are unchanged. -/
theorem upload_bad_extension_rejected (env : Env) (today : String)
    (fs : FS) (file : UploadFilePy) (fmt : OutputFormat)
    (h : ALLOWED_EXTENSIONS.contains (fileExtensionOf file.filename)
      = false) :
    (upload_and_convert_document env today fs file fmt).resp
        = Response.httpError 400 unsupportedFormatDetail
    ∧ (upload_and_convert_document env today fs file fmt).fs = fs := by
  have hmem : fileExtensionOf file.filename ∉ ALLOWED_EXTENSIONS := by
    simpa using h
  simp [upload_and_convert_document, hmem]

/-- Witness for C5: a `.exe` upload is rejected and the directories stay
empty. -/
theorem upload_bad_extension_rejected_witness :
    (upload_and_convert_document envOk "20250101" fs0
        ⟨"malware.exe", 100⟩ OutputFormat.markdown).resp
        = Response.httpError 400 unsupportedFormatDetail
    ∧ (upload_and_convert_document envOk "20250101" fs0
        ⟨"malware.exe", 100⟩ OutputFormat.markdown).fs = fs0 :=
  upload_bad_extension_rejected envOk "20250101" fs0
    ⟨"malware.exe", 100⟩ OutputFormat.markdown (by decide)

/-- C6: the size check reads at most `MAX_FILE_SIZE + 1` bytes; when the
bytes read exceed the ceiling the response status is 400 and the
directories are untouched (whatever the extension); an upload of exactly
the ceiling size passes the size check and proceeds to conversion. -/
theorem upload_size_check_spec (env : Env) (today : String) (fs : FS)
    (file : UploadFilePy) (fmt : OutputFormat) :
    sizeCheckBytesRead file ≤ MAX_FILE_SIZE + 1
    ∧ (MAX_FILE_SIZE < sizeCheckBytesRead file →
        respStatus (upload_and_convert_document env today fs file fmt).resp
            = 400
        ∧ (upload_and_convert_document env today fs file fmt).fs = fs)
    ∧ (file.size = MAX_FILE_SIZE →
        ALLOWED_EXTENSIONS.contains (fileExtensionOf file.filename) = true →
        (upload_and_convert_document env today fs file fmt).resp
          = (convert_document env
              (queuePathOf (mkQueuedName today file.filename)) fmt).1) := by
  refine ⟨Nat.min_le_right _ _, ?_, ?_⟩
  · intro hbig
    by_cases hmem : fileExtensionOf file.filename ∈ ALLOWED_EXTENSIONS
    · simp [upload_and_convert_document, hmem, hbig, respStatus]
    · simp [upload_and_convert_document, hmem, respStatus]
  · intro hsz hext
    have hmem : fileExtensionOf file.filename ∈ ALLOWED_EXTENSIONS := by
      simpa using hext
    have hnotbig : ¬ MAX_FILE_SIZE < sizeCheckBytesRead file := by
      simp only [sizeCheckBytesRead, hsz]
      omega
    simp [upload_and_convert_document, hmem, hnotbig]

/-- Witness for C6: a `MAX_FILE_SIZE + 1` byte upload is rejected with a
400 leaving the directories untouched, and a `MAX_FILE_SIZE` byte upload
proceeds to conversion. -/
theorem upload_size_check_spec_witness :
    (respStatus (upload_and_convert_document envOk "20250101" fs0
        ⟨"big.pdf", MAX_FILE_SIZE + 1⟩ OutputFormat.markdown).resp = 400
      ∧ (upload_and_convert_document envOk "20250101" fs0
        ⟨"big.pdf", MAX_FILE_SIZE + 1⟩ OutputFormat.markdown).fs = fs0)
    ∧ (upload_and_convert_document envOk "20250101" fs0
        ⟨"edge.pdf", MAX_FILE_SIZE⟩ OutputFormat.markdown).resp
        = (convert_document envOk
            (queuePathOf (mkQueuedName "20250101" "edge.pdf"))
            OutputFormat.markdown).1 :=
  ⟨(upload_size_check_spec envOk "20250101" fs0
      ⟨"big.pdf", MAX_FILE_SIZE + 1⟩ OutputFormat.markdown).2.1 (by decide),
   (upload_size_check_spec envOk "20250101" fs0
      ⟨"edge.pdf", MAX_FILE_SIZE⟩ OutputFormat.markdown).2.2 rfl (by decide)⟩

/-- C7: when a validated upload's conversion succeeds, the response is
the success dict and the file ends up in the processed directory — and
not in the queue directory — under the name `today ++ "_" ++ filename`
(`today` is `datetime.now().strftime` with the `%Y%m%d` pattern, i.e.
the current date as YYYYMMDD; it enters the embedding as a parameter). -/
theorem upload_success_moved_to_processed (env : Env) (today : String)
    (fs : FS) (file : UploadFilePy) (fmt : OutputFormat) (p : Payload)
    (hext : ALLOWED_EXTENSIONS.contains (fileExtensionOf file.filename)
      = true)
    (hsz : file.size ≤ MAX_FILE_SIZE)
    (hconv : (convert_document env
        (queuePathOf (mkQueuedName today file.filename)) fmt).1
      = Response.ok p) :
    (upload_and_convert_document env today fs file fmt).resp
        = Response.ok p
    ∧ hasEntry
        (upload_and_convert_document env today fs file fmt).fs.processed
        (mkQueuedName today file.filename) = true
    ∧ hasEntry
        (upload_and_convert_document env today fs file fmt).fs.queue
        (mkQueuedName today file.filename) = false := by
  have hmem : fileExtensionOf file.filename ∈ ALLOWED_EXTENSIONS := by
    simpa using hext
  have hnotbig : ¬ MAX_FILE_SIZE < sizeCheckBytesRead file := by
    simp only [sizeCheckBytesRead]
    omega
  simp [upload_and_convert_document, hmem, hnotbig, hconv,
    hasEntry_setEntry_self, hasEntry_delEntry_self]

/-- Witness for C7: a successfully converted `report.pdf` lands in the
processed directory as `20250101_report.pdf` and leaves the queue. -/
theorem upload_success_moved_to_processed_witness :
    (upload_and_convert_document envOk "20250101" fs0
        ⟨"report.pdf", 1024⟩ OutputFormat.markdown).resp
        = Response.ok (shapeResult OutputFormat.markdown docA)
    ∧ hasEntry
        (upload_and_convert_document envOk "20250101" fs0
          ⟨"report.pdf", 1024⟩ OutputFormat.markdown).fs.processed
        (mkQueuedName "20250101" "report.pdf") = true
    ∧ hasEntry
        (upload_and_convert_document envOk "20250101" fs0
          ⟨"report.pdf", 1024⟩ OutputFormat.markdown).fs.queue
        (mkQueuedName "20250101" "report.pdf") = false :=
  upload_success_moved_to_processed envOk "20250101" fs0
    ⟨"report.pdf", 1024⟩ OutputFormat.markdown
    (shapeResult OutputFormat.markdown docA) (by decide) (by decide)
    (by decide)

/-- C2: a validated upload whose filename ends in `.html` produces a
queue path that also ends in `.html`, so `convert_document` takes the
remote-fetch branch: the HTTP GET is attempted on the local queue path
string, and that saved local file is never passed to the converter
directly. -/
theorem upload_html_routed_to_fetcher (env : Env) (today : String)
    (fs : FS) (file : UploadFilePy) (fmt : OutputFormat)
    (hhtml : strEnds file.filename ".html" = true)
    (hext : ALLOWED_EXTENSIONS.contains (fileExtensionOf file.filename)
      = true)
    (hsz : file.size ≤ MAX_FILE_SIZE) :
    strEnds (queuePathOf (mkQueuedName today file.filename)) ".html" = true
    ∧ (upload_and_convert_document env today fs file fmt).eff.httpGetCalls
        = [queuePathOf (mkQueuedName today file.filename)]
    ∧ (upload_and_convert_document env today fs file
        fmt).eff.convertCalls.contains
          (queuePathOf (mkQueuedName today file.filename)) = false := by
  have hq : strEnds (queuePathOf (mkQueuedName today file.filename))
      ".html" = true := by
    unfold queuePathOf
    apply strEnds_append_right
    unfold mkQueuedName
    exact strEnds_append_right _ _ _ hhtml
  have hnotbig : ¬ MAX_FILE_SIZE < sizeCheckBytesRead file := by
    simp only [sizeCheckBytesRead]
    omega
  have hne : queuePathOf (mkQueuedName today file.filename) ≠ "tmp.html" :=
    queuePathOf_ne_tmp _
  have hmem : fileExtensionOf file.filename ∈ ALLOWED_EXTENSIONS := by
    simpa using hext
  have heff : (upload_and_convert_document env today fs file fmt).eff
      = (convert_document env
          (queuePathOf (mkQueuedName today file.filename)) fmt).2 := by
    simp [upload_and_convert_document, hmem, hnotbig]
  refine ⟨hq, ?_, ?_⟩ <;> rw [heff] <;> unfold convert_document <;>
    rw [if_neg (by simp [hq])]
  · cases env.httpGet (queuePathOf (mkQueuedName today file.filename)) with
    | error e => simp
    | ok t => cases env.convert "tmp.html" <;> simp
  · cases env.httpGet (queuePathOf (mkQueuedName today file.filename)) with
    | error e => simp
    | ok t => cases env.convert "tmp.html" <;> simp [hne]

/-- Witness for C2: an uploaded `page.html` ends up HTTP-GET-ed at its
local queue path `document_queue/20250101_page.html`. -/
theorem upload_html_routed_to_fetcher_witness :
    strEnds (queuePathOf (mkQueuedName "20250101" "page.html")) ".html"
        = true
    ∧ (upload_and_convert_document envOk "20250101" fs0
        ⟨"page.html", 64⟩ OutputFormat.markdown).eff.httpGetCalls
        = [queuePathOf (mkQueuedName "20250101" "page.html")]
    ∧ (upload_and_convert_document envOk "20250101" fs0
        ⟨"page.html", 64⟩ OutputFormat.markdown).eff.convertCalls.contains
          (queuePathOf (mkQueuedName "20250101" "page.html")) = false :=
  upload_html_routed_to_fetcher envOk "20250101" fs0 ⟨"page.html", 64⟩
    OutputFormat.markdown (by decide) (by decide) (by decide)

/-- C1 (code bug): an upload whose conversion fails is not cleaned up.
`convert_document` returns its 500 `JSONResponse` instead of raising, so
the upload handler's cleanup `except` branch never runs: the
`shutil.move` into the processed directory executes anyway.  Concretely,
uploading `report.pdf` against a converter that raises yields the 500
error body while `20250101_report.pdf` remains on disk in the processed
directory — contradicting both the spec and the code's own comments. -/
theorem upload_failed_conversion_file_orphaned :
    (upload_and_convert_document envConvFail "20250101" fs0
        ⟨"report.pdf", 1024⟩ OutputFormat.markdown).resp
      = Response.jsonResponse 500 "converter failed"
    ∧ hasEntry (upload_and_convert_document envConvFail "20250101" fs0
        ⟨"report.pdf", 1024⟩ OutputFormat.markdown).fs.processed
        "20250101_report.pdf" = true
    ∧ hasEntry (upload_and_convert_document envConvFail "20250101" fs0
        ⟨"report.pdf", 1024⟩ OutputFormat.markdown).fs.queue
        "20250101_report.pdf" = false := by
  decide

/-- C3 counterexample: the code's routing ignores whether the source is
remote.  A purely local path ending in `.html` is sent to the fetcher
(an HTTP GET of a filesystem path) instead of being passed straight to
the converter, while a remote `.pdf` URL is never fetched. -/
theorem fetcher_routing_counterexample :
    isRemoteUrl "document_queue/20250101_page.html" = false
    ∧ (convert_document envOk "document_queue/20250101_page.html"
        OutputFormat.markdown).2.httpGetCalls
      = ["document_queue/20250101_page.html"]
    ∧ isRemoteUrl "https://example.com/paper.pdf" = true
    ∧ (convert_document envOk "https://example.com/paper.pdf"
        OutputFormat.markdown).2.httpGetCalls = [] := by
  decide

/-- C3 amended: the fetcher is invoked exactly when the source string
ends in `.html`, whether remote or local; every other source (remote
URLs included) is passed directly to the external converter. -/
theorem fetcher_routing_amended (env : Env) (url : String)
    (fmt : OutputFormat) :
    ((convert_document env url fmt).2.httpGetCalls = [url] ↔
        strEnds url ".html" = true)
    ∧ (strEnds url ".html" = false →
        (convert_document env url fmt).2.convertCalls = [url]) := by
  unfold convert_document
  by_cases hu : strEnds url ".html" = false
  · rw [if_pos hu]
    cases env.convert url <;> simp [hu]
  · have hu' : strEnds url ".html" = true := by simpa using hu
    rw [if_neg hu]
    cases env.httpGet url with
    | error e => simp [hu']
    | ok t => cases env.convert "tmp.html" <;> simp [hu']

/-- Witness for C3 (amended): a `.pdf` source goes straight to the
converter, and an `.html` source is fetched. -/
theorem fetcher_routing_amended_witness :
    (convert_document envOk "notes.pdf"
        OutputFormat.markdown).2.convertCalls = ["notes.pdf"]
    ∧ ((convert_document envOk "page.html"
        OutputFormat.markdown).2.httpGetCalls = ["page.html"] ↔
        strEnds "page.html" ".html" = true) :=
  ⟨(fetcher_routing_amended envOk "notes.pdf" OutputFormat.markdown).2
      (by decide),
   (fetcher_routing_amended envOk "page.html" OutputFormat.markdown).1⟩
